import Mathlib

/-!
# SimpleFootIK: the foot offset estimator of `ASimpleFootIKCharacter`

Shallow embedding of `Source/SimpleFootIK/SimpleFootIKCharacter.cpp`:
the constructor, `IK`, `GetHitDistance`, `IKFootTrace` and `FInterp`.

Modelling decisions.

* A C++ `float` is an exact rational number. Rounding, infinities and NaN are
  outside the model; every property below is about the arithmetic and the
  control flow of the code.
* Engine services are inputs. `Engine` holds what the engine answers during one
  frame (frame time, actor location, socket locations, the line trace), and
  `FMath::FInterpTo` is a function parameter of everything that interpolates.
* The members are declared in `SimpleFootIKCharacter.h`. The ones the `.cpp`
  file reads and writes are the fields of `ASimpleFootIKCharacter`, and the
  values the header gives them are the fields of the object handed to the
  constructor.
-/

namespace SimpleFootIK

/-! ## Engine types -/

/-- Socket names. -/
abbrev FName := String

/-- Three `float` coordinates. -/
structure FVector where
  X : ℚ
  Y : ℚ
  Z : ℚ

/-- Method `FVector::Set`: overwrite the three coordinates. -/
def FVector.Set (_self : FVector) (InX InY InZ : ℚ) : FVector :=
  { X := InX, Y := InY, Z := InZ }

/-- The two members of `FHitResult` that `IKFootTrace` reads. -/
structure FHitResult where
  bBlockingHit : Bool
  Distance : ℚ

/-- One call of `GEngine->AddOnScreenDebugMessage` made by `GetHitDistance`:
the socket the message is about (its key is a hash of that name), the display
time and the distance that is printed. -/
structure FOnScreenDebugMessage where
  Socket : FName
  TimeToDisplay : ℚ
  HitDistance : ℚ

/-- Engine template `FMath::Abs`: `(A >= 0) ? A : -A`. -/
def FMath.Abs (A : ℚ) : ℚ := if A ≥ 0 then A else -A

/-- Engine template `FMath::Max`: `(A >= B) ? A : B`. -/
def FMath.Max (A B : ℚ) : ℚ := if A ≥ B then A else B

/-- Engine template `FMath::Clamp`: `X < Min ? Min : X < Max ? X : Max`. -/
def FMath.Clamp (X Min Max : ℚ) : ℚ := if X < Min then Min else if X < Max then X else Max

/-- The type of `FMath::FInterpTo (Current, Target, DeltaTime, InterpSpeed)`. -/
abbrev FInterpToFn := ℚ → ℚ → ℚ → ℚ → ℚ

/-- The collision capsule, an engine component. The model keeps the sizes this
class hands to it and the scale the engine multiplies them with when the class
asks for the scaled half-height. The setters record their arguments; what the
engine does with them afterwards is not part of the repository. -/
structure UCapsuleComponent where
  CapsuleRadius : ℚ
  CapsuleHalfHeight : ℚ
  ShapeScale : ℚ

/-- Method `InitCapsuleSize (InRadius, InHalfHeight)`. -/
def UCapsuleComponent.InitCapsuleSize (self : UCapsuleComponent) (InRadius InHalfHeight : ℚ) :
    UCapsuleComponent :=
  { self with CapsuleRadius := InRadius, CapsuleHalfHeight := InHalfHeight }

/-- Method `GetScaledCapsuleHalfHeight ()`. -/
def UCapsuleComponent.GetScaledCapsuleHalfHeight (self : UCapsuleComponent) : ℚ :=
  self.CapsuleHalfHeight * self.ShapeScale

/-- Method `SetCapsuleHalfHeight (HalfHeight)`: the component records the
half-height it is given. -/
def UCapsuleComponent.SetCapsuleHalfHeight (self : UCapsuleComponent) (HalfHeight : ℚ) :
    UCapsuleComponent :=
  { self with CapsuleHalfHeight := HalfHeight }

/-- What the engine answers during one frame: `GetWorld()->GetDeltaSeconds()`,
`GetActorLocation()`, `GetMesh()->GetSocketLocation(Socket)` and the outcome
`OutHit` of `UKismetSystemLibrary::LineTraceSingleForObjects` from `Start` to
`End` against `ECC_WorldStatic` objects. -/
structure Engine where
  DeltaSeconds : ℚ
  ActorLocation : FVector
  SocketLocation : FName → FVector
  LineTraceSingleForObjects : FVector → FVector → FHitResult

/-! ## The character -/

/-- The members of `ASimpleFootIKCharacter` that the source file reads or
writes, and its capsule component. -/
structure ASimpleFootIKCharacter where
  BaseTurnRate : ℚ
  BaseLookUpRate : ℚ
  bUseControllerRotationPitch : Bool
  bUseControllerRotationYaw : Bool
  bUseControllerRotationRoll : Bool
  CapsuleComponent : UCapsuleComponent
  LeftFootSocket : FName
  RightFootSocket : FName
  CapsuleHalfHeight : ℚ
  IKTraceDistance : ℚ
  IKInterpSpeed : ℚ
  IKOffsetLeftFoot : ℚ
  IKOffsetRightFoot : ℚ
  MeshOffsetZ : ℚ

/-- The constructor `ASimpleFootIKCharacter::ASimpleFootIKCharacter`, applied to
the object as the base class and the member initialisers of the header leave
it. The movement component and the camera rig it also configures are engine
sub-objects that nothing below looks at. -/
def ASimpleFootIKCharacter.ctor (self : ASimpleFootIKCharacter) : ASimpleFootIKCharacter :=
  let s1 := { self with CapsuleComponent := self.CapsuleComponent.InitCapsuleSize 42 96 }
  let s2 := { s1 with BaseTurnRate := 45 }
  let s3 := { s2 with BaseLookUpRate := 45 }
  let s4 := { s3 with bUseControllerRotationPitch := false }
  let s5 := { s4 with bUseControllerRotationYaw := false }
  let s6 := { s5 with bUseControllerRotationRoll := false }
  let s7 := { s6 with CapsuleHalfHeight := s6.CapsuleComponent.GetScaledCapsuleHalfHeight }
  { s7 with IKTraceDistance := s7.CapsuleHalfHeight / 2 }

/-- The method `FInterp`: `FMath::FInterpTo` with the frame time of the world
and the interpolation speed of the character. -/
def FInterp (FInterpTo : FInterpToFn) (w : Engine) (self : ASimpleFootIKCharacter)
    (CurrentValue TargetValue : ℚ) : ℚ :=
  FInterpTo CurrentValue TargetValue w.DeltaSeconds self.IKInterpSpeed

/-- The method `IKFootTrace`: cast a ray from foot level straight down by
`IKTraceDistance` under the socket; the distance of a blocking hit, else `-1`. -/
def IKFootTrace (w : Engine) (self : ASimpleFootIKCharacter) (Socket : FName) : ℚ :=
  let Start : FVector := { X := 0, Y := 0, Z := 0 }
  let End : FVector := { X := 0, Y := 0, Z := 0 }
  let SocketLocation := w.SocketLocation Socket
  let X := SocketLocation.X
  let Y := SocketLocation.Y
  let FootZ := w.ActorLocation.Z - self.CapsuleHalfHeight
  let Start := Start.Set X Y FootZ
  let End := End.Set X Y (FootZ - self.IKTraceDistance)
  let OutHit := w.LineTraceSingleForObjects Start End
  if OutHit.bBlockingHit then OutHit.Distance else -1

/-- The method `GetHitDistance`: the result of `IKFootTrace`, together with the
on-screen debug message it posts. -/
def GetHitDistance (w : Engine) (self : ASimpleFootIKCharacter) (Socket : FName) :
    ℚ × FOnScreenDebugMessage :=
  let HitDistance := IKFootTrace w self Socket
  (HitDistance, { Socket := Socket, TimeToDisplay := 5, HitDistance := HitDistance })

/-- The method `IK`: one per-frame update. Returns the character afterwards and
the two debug messages posted by the probes. -/
def IK (FInterpTo : FInterpToFn) (w : Engine) (self : ASimpleFootIKCharacter) :
    ASimpleFootIKCharacter × List FOnScreenDebugMessage :=
  let probeL := GetHitDistance w self self.LeftFootSocket
  let HitDistanceL := probeL.1
  let probeR := GetHitDistance w self self.RightFootSocket
  let HitDistanceR := probeR.1
  let s1 : ASimpleFootIKCharacter :=
    if HitDistanceL < 0 ∨ HitDistanceR < 0 then
      let t1 := { self with IKOffsetLeftFoot := FInterp FInterpTo w self self.IKOffsetLeftFoot 0 }
      { t1 with IKOffsetRightFoot := FInterp FInterpTo w t1 t1.IKOffsetRightFoot 0 }
    else
      let HitDistanceDifference := FMath.Abs (HitDistanceL - HitDistanceR)
      if HitDistanceL < HitDistanceR then
        let t1 := { self with
          IKOffsetLeftFoot := FInterp FInterpTo w self self.IKOffsetLeftFoot HitDistanceDifference }
        { t1 with IKOffsetRightFoot := FInterp FInterpTo w t1 t1.IKOffsetRightFoot 0 }
      else
        let t1 := { self with IKOffsetLeftFoot := FInterp FInterpTo w self self.IKOffsetLeftFoot 0 }
        { t1 with
          IKOffsetRightFoot := FInterp FInterpTo w t1 t1.IKOffsetRightFoot HitDistanceDifference }
  let MeshOffsetZMax := FMath.Max HitDistanceL HitDistanceR
  let s2 := { s1 with MeshOffsetZ := FInterp FInterpTo w s1 s1.MeshOffsetZ MeshOffsetZMax }
  let _CapsuleHalfHeight :=
    FInterp FInterpTo w s2 s2.CapsuleHalfHeight (s2.CapsuleHalfHeight - MeshOffsetZMax / 2)
  ({ s2 with CapsuleComponent := s2.CapsuleComponent.SetCapsuleHalfHeight _CapsuleHalfHeight },
    [probeL.2, probeR.2])

/-- The left probe result of a frame, `GetHitDistance(LeftFootSocket)`. -/
def HitDistanceLeft (w : Engine) (self : ASimpleFootIKCharacter) : ℚ :=
  (GetHitDistance w self self.LeftFootSocket).1

/-- The right probe result of a frame, `GetHitDistance(RightFootSocket)`. -/
def HitDistanceRight (w : Engine) (self : ASimpleFootIKCharacter) : ℚ :=
  (GetHitDistance w self self.RightFootSocket).1

/-! ## Concrete inputs -/

/-- A frame at 50 Hz in which the trace under the left foot (negative `Y`)
answers `hitL` and the trace under the right foot answers `hitR`. -/
def sampleEngine (hitL hitR : FHitResult) : Engine :=
  { DeltaSeconds := 1 / 50
    ActorLocation := { X := 0, Y := 0, Z := 96 }
    SocketLocation := fun Socket =>
      if Socket = "foot_l" then { X := 0, Y := -10, Z := 5 } else { X := 0, Y := 10, Z := 5 }
    LineTraceSingleForObjects := fun Start _End => if Start.Y < 0 then hitL else hitR }

/-- A blocking hit at the given distance. -/
def hitAt (d : ℚ) : FHitResult := { bBlockingHit := true, Distance := d }

/-- The trace found nothing. -/
def noHit : FHitResult := { bBlockingHit := false, Distance := 0 }

/-- A character as the header could leave it before the constructor runs, with
interpolation speed 10 and the given foot and mesh offsets. -/
def sampleRaw (a b m : ℚ) : ASimpleFootIKCharacter :=
  { BaseTurnRate := 0
    BaseLookUpRate := 0
    bUseControllerRotationPitch := true
    bUseControllerRotationYaw := true
    bUseControllerRotationRoll := true
    CapsuleComponent := { CapsuleRadius := 34, CapsuleHalfHeight := 88, ShapeScale := 1 }
    LeftFootSocket := "foot_l"
    RightFootSocket := "foot_r"
    CapsuleHalfHeight := 0
    IKTraceDistance := 0
    IKInterpSpeed := 10
    IKOffsetLeftFoot := a
    IKOffsetRightFoot := b
    MeshOffsetZ := m }

/-- The constructed character with the given foot and mesh offsets. -/
def sampleCharacter (a b m : ℚ) : ASimpleFootIKCharacter := (sampleRaw a b m).ctor

/-- The linear blend `Current + (Target - Current) * Clamp (DeltaTime * InterpSpeed, 0, 1)`. -/
def linearInterpTo : FInterpToFn := fun Current Target DeltaTime InterpSpeed =>
  Current + (Target - Current) * FMath.Clamp (DeltaTime * InterpSpeed) 0 1

/-- The target `IK` hands to `FInterp` for the left foot: `0` in the no-hit
branch, the difference when `L < R`, `0` in the last branch. -/
def leftFootTarget (L R : ℚ) : ℚ :=
  if L < 0 ∨ R < 0 then 0 else if L < R then |L - R| else 0

/-- The target `IK` hands to `FInterp` for the right foot: `0` in the no-hit
branch, `0` when `L < R`, the difference in the last branch. -/
def rightFootTarget (L R : ℚ) : ℚ :=
  if L < 0 ∨ R < 0 then 0 else if L < R then 0 else |L - R|

/-- The character after the first `n` frames of a game: `IK` is called once per
frame, frame `k` with the engine answers `frames k`. -/
def IKRun (FInterpTo : FInterpToFn) (frames : ℕ → Engine) (c : ASimpleFootIKCharacter) :
    ℕ → ASimpleFootIKCharacter
  | 0 => c
  | n + 1 => (IK FInterpTo (frames n) (IKRun FInterpTo frames c n)).1

/-- Both foot offsets lie between `0` and the trace distance. -/
def OffsetsInRange (c : ASimpleFootIKCharacter) : Prop :=
  (0 ≤ c.IKOffsetLeftFoot ∧ c.IKOffsetLeftFoot ≤ c.IKTraceDistance) ∧
    (0 ≤ c.IKOffsetRightFoot ∧ c.IKOffsetRightFoot ≤ c.IKTraceDistance)

instance (c : ASimpleFootIKCharacter) : Decidable (OffsetsInRange c) := by
  unfold OffsetsInRange
  infer_instance

/-- Both probe results of the frame are the sentinel `-1` or a distance between
`0` and the trace distance. -/
def ProbesInRange (w : Engine) (c : ASimpleFootIKCharacter) : Prop :=
  (HitDistanceLeft w c = -1 ∨
      (0 ≤ HitDistanceLeft w c ∧ HitDistanceLeft w c ≤ c.IKTraceDistance)) ∧
    (HitDistanceRight w c = -1 ∨
      (0 ≤ HitDistanceRight w c ∧ HitDistanceRight w c ≤ c.IKTraceDistance))

instance (w : Engine) (c : ASimpleFootIKCharacter) : Decidable (ProbesInRange w c) := by
  unfold ProbesInRange
  infer_instance

/-- The configuration read by the probes and by `FInterp` is the same in both
characters. -/
structure SameConfig (s c : ASimpleFootIKCharacter) : Prop where
  height : s.CapsuleHalfHeight = c.CapsuleHalfHeight
  trace : s.IKTraceDistance = c.IKTraceDistance
  speed : s.IKInterpSpeed = c.IKInterpSpeed
  left : s.LeftFootSocket = c.LeftFootSocket
  right : s.RightFootSocket = c.RightFootSocket

instance (s c : ASimpleFootIKCharacter) : Decidable (SameConfig s c) :=
  decidable_of_iff
    (s.CapsuleHalfHeight = c.CapsuleHalfHeight ∧ s.IKTraceDistance = c.IKTraceDistance ∧
      s.IKInterpSpeed = c.IKInterpSpeed ∧ s.LeftFootSocket = c.LeftFootSocket ∧
      s.RightFootSocket = c.RightFootSocket)
    ⟨fun h => ⟨h.1, h.2.1, h.2.2.1, h.2.2.2.1, h.2.2.2.2⟩,
      fun h => ⟨h.height, h.trace, h.speed, h.left, h.right⟩⟩

/-! ## Basic facts -/

theorem FMath.Abs_eq_abs (A : ℚ) : FMath.Abs A = |A| := by
  unfold FMath.Abs
  split_ifs with h
  · exact (abs_of_nonneg h).symm
  · exact (abs_of_neg (not_le.mp h)).symm

theorem FMath.Max_eq_max (A B : ℚ) : FMath.Max A B = max A B := by
  unfold FMath.Max
  split_ifs with h
  · exact (max_eq_left h).symm
  · exact (max_eq_right (le_of_lt (not_le.mp h))).symm

theorem FInterp_speed (FInterpTo : FInterpToFn) (w : Engine) (s c : ASimpleFootIKCharacter)
    (h : s.IKInterpSpeed = c.IKInterpSpeed) (cur tgt : ℚ) :
    FInterp FInterpTo w s cur tgt = FInterp FInterpTo w c cur tgt := by
  simp [FInterp, h]

theorem IK_left (FInterpTo : FInterpToFn) (w : Engine) (c : ASimpleFootIKCharacter) :
    (IK FInterpTo w c).1.IKOffsetLeftFoot =
      FInterp FInterpTo w c c.IKOffsetLeftFoot
        (leftFootTarget (HitDistanceLeft w c) (HitDistanceRight w c)) := by
  simp only [IK, HitDistanceLeft, HitDistanceRight, leftFootTarget, FMath.Abs_eq_abs]
  split_ifs <;> rfl

theorem IK_right (FInterpTo : FInterpToFn) (w : Engine) (c : ASimpleFootIKCharacter) :
    (IK FInterpTo w c).1.IKOffsetRightFoot =
      FInterp FInterpTo w c c.IKOffsetRightFoot
        (rightFootTarget (HitDistanceLeft w c) (HitDistanceRight w c)) := by
  simp only [IK, HitDistanceLeft, HitDistanceRight, rightFootTarget, FMath.Abs_eq_abs]
  split_ifs <;> rfl

theorem IK_mesh (FInterpTo : FInterpToFn) (w : Engine) (c : ASimpleFootIKCharacter) :
    (IK FInterpTo w c).1.MeshOffsetZ =
      FInterp FInterpTo w c c.MeshOffsetZ (max (HitDistanceLeft w c) (HitDistanceRight w c)) := by
  simp only [IK, HitDistanceLeft, HitDistanceRight, FMath.Max_eq_max]
  split_ifs <;> rfl

theorem IK_capsule (FInterpTo : FInterpToFn) (w : Engine) (c : ASimpleFootIKCharacter) :
    (IK FInterpTo w c).1.CapsuleComponent.CapsuleHalfHeight =
      FInterp FInterpTo w c c.CapsuleHalfHeight
        (c.CapsuleHalfHeight - max (HitDistanceLeft w c) (HitDistanceRight w c) / 2) := by
  simp only [IK, HitDistanceLeft, HitDistanceRight, FMath.Max_eq_max,
    UCapsuleComponent.SetCapsuleHalfHeight]
  split_ifs <;> rfl

/-- Everything `IK` leaves alone. -/
theorem IK_untouched (FInterpTo : FInterpToFn) (w : Engine) (c : ASimpleFootIKCharacter) :
    (IK FInterpTo w c).1 =
      { c with
        IKOffsetLeftFoot := (IK FInterpTo w c).1.IKOffsetLeftFoot
        IKOffsetRightFoot := (IK FInterpTo w c).1.IKOffsetRightFoot
        MeshOffsetZ := (IK FInterpTo w c).1.MeshOffsetZ
        CapsuleComponent :=
          { c.CapsuleComponent with
            CapsuleHalfHeight := (IK FInterpTo w c).1.CapsuleComponent.CapsuleHalfHeight } } := by
  simp only [IK, UCapsuleComponent.SetCapsuleHalfHeight]
  split_ifs <;> rfl

/-! ## The sample frame evaluated -/

theorem sample_left (hitL hitR : FHitResult) (a b m : ℚ) :
    HitDistanceLeft (sampleEngine hitL hitR) (sampleCharacter a b m) =
      if hitL.bBlockingHit then hitL.Distance else -1 := by
  simp [HitDistanceLeft, GetHitDistance, IKFootTrace, sampleEngine, sampleCharacter, sampleRaw,
    ASimpleFootIKCharacter.ctor, FVector.Set]

theorem sample_right (hitL hitR : FHitResult) (a b m : ℚ) :
    HitDistanceRight (sampleEngine hitL hitR) (sampleCharacter a b m) =
      if hitR.bBlockingHit then hitR.Distance else -1 := by
  have h10 : ¬ ((10 : ℚ) < 0) := by norm_num
  simp [HitDistanceRight, GetHitDistance, IKFootTrace, sampleEngine, sampleCharacter,
    sampleRaw, ASimpleFootIKCharacter.ctor, FVector.Set, h10]

theorem sample_FInterp (hitL hitR : FHitResult) (a b m cur tgt : ℚ) :
    FInterp linearInterpTo (sampleEngine hitL hitR) (sampleCharacter a b m) cur tgt =
      cur + (tgt - cur) / 5 := by
  simp only [FInterp, linearInterpTo, sampleEngine, sampleCharacter, sampleRaw,
    ASimpleFootIKCharacter.ctor, FMath.Clamp]
  norm_num
  ring

/-! ## Foot targets -/

/-- C1. When both probes report a distance (`L ≥ 0`, `R ≥ 0`), one call of `IK`
interpolates the offset of the foot with the strictly smaller hit distance
toward `|L - R|` and the offset of the other foot toward `0`; when `L = R`
both feet are interpolated toward `0`. -/
theorem IK_both_hit_targets (FInterpTo : FInterpToFn) (w : Engine) (c : ASimpleFootIKCharacter)
    (hL : 0 ≤ HitDistanceLeft w c) (hR : 0 ≤ HitDistanceRight w c) :
    (HitDistanceLeft w c < HitDistanceRight w c →
      (IK FInterpTo w c).1.IKOffsetLeftFoot =
          FInterp FInterpTo w c c.IKOffsetLeftFoot |HitDistanceLeft w c - HitDistanceRight w c| ∧
        (IK FInterpTo w c).1.IKOffsetRightFoot = FInterp FInterpTo w c c.IKOffsetRightFoot 0) ∧
    (HitDistanceRight w c < HitDistanceLeft w c →
      (IK FInterpTo w c).1.IKOffsetRightFoot =
          FInterp FInterpTo w c c.IKOffsetRightFoot |HitDistanceLeft w c - HitDistanceRight w c| ∧
        (IK FInterpTo w c).1.IKOffsetLeftFoot = FInterp FInterpTo w c c.IKOffsetLeftFoot 0) ∧
    (HitDistanceLeft w c = HitDistanceRight w c →
      (IK FInterpTo w c).1.IKOffsetLeftFoot = FInterp FInterpTo w c c.IKOffsetLeftFoot 0 ∧
        (IK FInterpTo w c).1.IKOffsetRightFoot = FInterp FInterpTo w c c.IKOffsetRightFoot 0) := by
  have hno : ¬ (HitDistanceLeft w c < 0 ∨ HitDistanceRight w c < 0) := by
    rintro (h | h) <;> linarith
  rw [IK_left, IK_right]
  refine ⟨fun hlt => ?_, fun hlt => ?_, fun heq => ?_⟩
  · simp [leftFootTarget, rightFootTarget, hno, hlt]
  · simp [leftFootTarget, rightFootTarget, hno, not_lt.mpr hlt.le]
  · simp [leftFootTarget, rightFootTarget, hno, heq]

/-- Witness for C1: left probe 4, right probe 10, offsets 1 and 2. -/
theorem IK_both_hit_targets_witness :
    HitDistanceLeft (sampleEngine (hitAt 4) (hitAt 10)) (sampleCharacter 1 2 3) = 4 ∧
    HitDistanceRight (sampleEngine (hitAt 4) (hitAt 10)) (sampleCharacter 1 2 3) = 10 ∧
    (IK linearInterpTo (sampleEngine (hitAt 4) (hitAt 10)) (sampleCharacter 1 2 3)).1.IKOffsetLeftFoot
      = 2 ∧
    (IK linearInterpTo (sampleEngine (hitAt 4) (hitAt 10)) (sampleCharacter 1 2 3)).1.IKOffsetRightFoot
      = 8 / 5 := by
  have hl : HitDistanceLeft (sampleEngine (hitAt 4) (hitAt 10)) (sampleCharacter 1 2 3) = 4 := by
    rw [sample_left]; rfl
  have hr : HitDistanceRight (sampleEngine (hitAt 4) (hitAt 10)) (sampleCharacter 1 2 3) = 10 := by
    rw [sample_right]; rfl
  have h := (IK_both_hit_targets linearInterpTo (sampleEngine (hitAt 4) (hitAt 10))
    (sampleCharacter 1 2 3) (by rw [hl]; norm_num) (by rw [hr]; norm_num)).1
    (by rw [hl, hr]; norm_num)
  rw [sample_FInterp, sample_FInterp, hl, hr] at h
  refine ⟨hl, hr, ?_, ?_⟩
  · rw [h.1]; norm_num [sampleCharacter, sampleRaw, ASimpleFootIKCharacter.ctor, abs_of_neg]
  · rw [h.2]; norm_num [sampleCharacter, sampleRaw, ASimpleFootIKCharacter.ctor]

/-- C2. When at least one probe reports the no-hit sentinel (a negative value),
one call of `IK` interpolates both foot offsets toward `0`, whatever the other
probe says and whichever side failed. -/
theorem IK_no_hit_targets (FInterpTo : FInterpToFn) (w : Engine) (c : ASimpleFootIKCharacter)
    (hneg : HitDistanceLeft w c < 0 ∨ HitDistanceRight w c < 0) :
    (IK FInterpTo w c).1.IKOffsetLeftFoot = FInterp FInterpTo w c c.IKOffsetLeftFoot 0 ∧
    (IK FInterpTo w c).1.IKOffsetRightFoot = FInterp FInterpTo w c c.IKOffsetRightFoot 0 := by
  rw [IK_left, IK_right]
  simp [leftFootTarget, rightFootTarget, hneg]

/-- Witness for C2: the right trace finds nothing while the left one reports 7. -/
theorem IK_no_hit_targets_witness :
    HitDistanceLeft (sampleEngine (hitAt 7) noHit) (sampleCharacter 1 2 3) = 7 ∧
    HitDistanceRight (sampleEngine (hitAt 7) noHit) (sampleCharacter 1 2 3) = -1 ∧
    (IK linearInterpTo (sampleEngine (hitAt 7) noHit) (sampleCharacter 1 2 3)).1.IKOffsetLeftFoot
      = 4 / 5 ∧
    (IK linearInterpTo (sampleEngine (hitAt 7) noHit) (sampleCharacter 1 2 3)).1.IKOffsetRightFoot
      = 8 / 5 := by
  have hl : HitDistanceLeft (sampleEngine (hitAt 7) noHit) (sampleCharacter 1 2 3) = 7 := by
    rw [sample_left]; rfl
  have hr : HitDistanceRight (sampleEngine (hitAt 7) noHit) (sampleCharacter 1 2 3) = -1 := by
    rw [sample_right]; rfl
  have h := IK_no_hit_targets linearInterpTo (sampleEngine (hitAt 7) noHit)
    (sampleCharacter 1 2 3) (Or.inr (by rw [hr]; norm_num))
  rw [sample_FInterp, sample_FInterp] at h
  refine ⟨hl, hr, ?_, ?_⟩
  · rw [h.1]; norm_num [sampleCharacter, sampleRaw, ASimpleFootIKCharacter.ctor]
  · rw [h.2]; norm_num [sampleCharacter, sampleRaw, ASimpleFootIKCharacter.ctor]

/-- C3, as the code has it. For probe results `L = 10` and `R = 4` the difference
is `6`; the right foot, whose hit distance is the smaller one, is interpolated
toward `6`, the left foot toward `0`, and the mesh offset toward `10`. -/
theorem IK_scenario_left10_right4 (FInterpTo : FInterpToFn) (w : Engine)
    (c : ASimpleFootIKCharacter)
    (hL : HitDistanceLeft w c = 10) (hR : HitDistanceRight w c = 4) :
    FMath.Abs (HitDistanceLeft w c - HitDistanceRight w c) = 6 ∧
    (IK FInterpTo w c).1.IKOffsetLeftFoot = FInterp FInterpTo w c c.IKOffsetLeftFoot 0 ∧
    (IK FInterpTo w c).1.IKOffsetRightFoot = FInterp FInterpTo w c c.IKOffsetRightFoot 6 ∧
    (IK FInterpTo w c).1.MeshOffsetZ = FInterp FInterpTo w c c.MeshOffsetZ 10 := by
  have habs : |(10 : ℚ) - 4| = 6 := by norm_num
  have hmax : max (10 : ℚ) 4 = 10 := by norm_num
  rw [IK_left, IK_right, IK_mesh, FMath.Abs_eq_abs, hL, hR, habs, hmax]
  refine ⟨rfl, ?_, ?_, rfl⟩
  · norm_num [leftFootTarget]
  · norm_num [rightFootTarget]

/-- Witness for C3: the sample frame with traces 10 (left) and 4 (right), offsets
1, 2 and 3; the left offset relaxes to 4/5 and the right one rises to 14/5. -/
theorem IK_scenario_left10_right4_witness :
    HitDistanceLeft (sampleEngine (hitAt 10) (hitAt 4)) (sampleCharacter 1 2 3) = 10 ∧
    HitDistanceRight (sampleEngine (hitAt 10) (hitAt 4)) (sampleCharacter 1 2 3) = 4 ∧
    (IK linearInterpTo (sampleEngine (hitAt 10) (hitAt 4)) (sampleCharacter 1 2 3)).1.IKOffsetLeftFoot
      = 4 / 5 ∧
    (IK linearInterpTo (sampleEngine (hitAt 10) (hitAt 4)) (sampleCharacter 1 2 3)).1.IKOffsetRightFoot
      = 14 / 5 ∧
    (IK linearInterpTo (sampleEngine (hitAt 10) (hitAt 4)) (sampleCharacter 1 2 3)).1.MeshOffsetZ
      = 22 / 5 := by
  have hl : HitDistanceLeft (sampleEngine (hitAt 10) (hitAt 4)) (sampleCharacter 1 2 3) = 10 := by
    rw [sample_left]; rfl
  have hr : HitDistanceRight (sampleEngine (hitAt 10) (hitAt 4)) (sampleCharacter 1 2 3) = 4 := by
    rw [sample_right]; rfl
  have h := IK_scenario_left10_right4 linearInterpTo (sampleEngine (hitAt 10) (hitAt 4))
    (sampleCharacter 1 2 3) hl hr
  rw [sample_FInterp, sample_FInterp, sample_FInterp] at h
  refine ⟨hl, hr, ?_, ?_, ?_⟩
  · rw [h.2.1]; norm_num [sampleCharacter, sampleRaw, ASimpleFootIKCharacter.ctor]
  · rw [h.2.2.1]; norm_num [sampleCharacter, sampleRaw, ASimpleFootIKCharacter.ctor]
  · rw [h.2.2.2]; norm_num [sampleCharacter, sampleRaw, ASimpleFootIKCharacter.ctor]

/-- C3 as written fails. In the sample frame with traces 10 (left) and 4
(right) the new left offset is not `FInterp (IKOffsetLeftFoot, 6)` and the new
right offset is not `FInterp (IKOffsetRightFoot, 0)`. -/
theorem IK_scenario_left_target_six_refuted :
    HitDistanceLeft (sampleEngine (hitAt 10) (hitAt 4)) (sampleCharacter 1 2 3) = 10 ∧
    HitDistanceRight (sampleEngine (hitAt 10) (hitAt 4)) (sampleCharacter 1 2 3) = 4 ∧
    (IK linearInterpTo (sampleEngine (hitAt 10) (hitAt 4)) (sampleCharacter 1 2 3)).1.IKOffsetLeftFoot
      ≠ FInterp linearInterpTo (sampleEngine (hitAt 10) (hitAt 4)) (sampleCharacter 1 2 3)
          (sampleCharacter 1 2 3).IKOffsetLeftFoot 6 ∧
    (IK linearInterpTo (sampleEngine (hitAt 10) (hitAt 4)) (sampleCharacter 1 2 3)).1.IKOffsetRightFoot
      ≠ FInterp linearInterpTo (sampleEngine (hitAt 10) (hitAt 4)) (sampleCharacter 1 2 3)
          (sampleCharacter 1 2 3).IKOffsetRightFoot 0 := by
  have hl : HitDistanceLeft (sampleEngine (hitAt 10) (hitAt 4)) (sampleCharacter 1 2 3) = 10 := by
    rw [sample_left]; rfl
  have hr : HitDistanceRight (sampleEngine (hitAt 10) (hitAt 4)) (sampleCharacter 1 2 3) = 4 := by
    rw [sample_right]; rfl
  refine ⟨hl, hr, ?_, ?_⟩
  · rw [IK_left, hl, hr, sample_FInterp, sample_FInterp]
    norm_num [leftFootTarget, sampleCharacter, sampleRaw, ASimpleFootIKCharacter.ctor]
  · rw [IK_right, hl, hr, sample_FInterp, sample_FInterp]
    norm_num [rightFootTarget, sampleCharacter, sampleRaw, ASimpleFootIKCharacter.ctor]

/-! ## Mesh offset and capsule -/

/-- C5. The half-height `IK` passes to `SetCapsuleHalfHeight` is
`FInterp (CapsuleHalfHeight, CapsuleHalfHeight - max (L, R) / 2)`. When
`max (L, R) = 0` that target is the stored half-height itself, and if moreover
`FInterp (x, x) = x` the half-height applied is `CapsuleHalfHeight`; a capsule
that already had that half-height is left as it was. -/
theorem IK_capsule_half_height (FInterpTo : FInterpToFn) (w : Engine)
    (c : ASimpleFootIKCharacter) :
    (IK FInterpTo w c).1.CapsuleComponent.CapsuleHalfHeight =
      FInterp FInterpTo w c c.CapsuleHalfHeight
        (c.CapsuleHalfHeight - max (HitDistanceLeft w c) (HitDistanceRight w c) / 2) ∧
    (max (HitDistanceLeft w c) (HitDistanceRight w c) = 0 →
      c.CapsuleHalfHeight - max (HitDistanceLeft w c) (HitDistanceRight w c) / 2 =
          c.CapsuleHalfHeight ∧
        ((∀ x, FInterp FInterpTo w c x x = x) →
          (IK FInterpTo w c).1.CapsuleComponent.CapsuleHalfHeight = c.CapsuleHalfHeight ∧
            (c.CapsuleComponent.CapsuleHalfHeight = c.CapsuleHalfHeight →
              (IK FInterpTo w c).1.CapsuleComponent = c.CapsuleComponent))) := by
  refine ⟨IK_capsule FInterpTo w c, fun h0 => ⟨by rw [h0]; norm_num, fun hid => ?_⟩⟩
  have happ : (IK FInterpTo w c).1.CapsuleComponent.CapsuleHalfHeight = c.CapsuleHalfHeight := by
    rw [IK_capsule, h0]
    norm_num
    exact hid _
  refine ⟨happ, fun hsame => ?_⟩
  rw [IK_untouched FInterpTo w c]
  simp only [happ]
  rw [← hsame]

/-- Witness for C5: both traces report distance 0 under the constructed
character, whose capsule and stored half-height are both 96. -/
theorem IK_capsule_half_height_witness :
    max (HitDistanceLeft (sampleEngine (hitAt 0) (hitAt 0)) (sampleCharacter 1 2 3))
      (HitDistanceRight (sampleEngine (hitAt 0) (hitAt 0)) (sampleCharacter 1 2 3)) = 0 ∧
    (IK linearInterpTo (sampleEngine (hitAt 0) (hitAt 0))
      (sampleCharacter 1 2 3)).1.CapsuleComponent.CapsuleHalfHeight = 96 ∧
    (IK linearInterpTo (sampleEngine (hitAt 0) (hitAt 0)) (sampleCharacter 1 2 3)).1.CapsuleComponent
      = (sampleCharacter 1 2 3).CapsuleComponent := by
  have hl : HitDistanceLeft (sampleEngine (hitAt 0) (hitAt 0)) (sampleCharacter 1 2 3) = 0 := by
    rw [sample_left]; rfl
  have hr : HitDistanceRight (sampleEngine (hitAt 0) (hitAt 0)) (sampleCharacter 1 2 3) = 0 := by
    rw [sample_right]; rfl
  have hmax : max (HitDistanceLeft (sampleEngine (hitAt 0) (hitAt 0)) (sampleCharacter 1 2 3))
      (HitDistanceRight (sampleEngine (hitAt 0) (hitAt 0)) (sampleCharacter 1 2 3)) = 0 := by
    rw [hl, hr]; norm_num
  have hH : (sampleCharacter 1 2 3).CapsuleHalfHeight = 96 := by
    norm_num [sampleCharacter, sampleRaw, ASimpleFootIKCharacter.ctor,
      UCapsuleComponent.GetScaledCapsuleHalfHeight, UCapsuleComponent.InitCapsuleSize]
  have hC : (sampleCharacter 1 2 3).CapsuleComponent.CapsuleHalfHeight = 96 := by
    norm_num [sampleCharacter, sampleRaw, ASimpleFootIKCharacter.ctor,
      UCapsuleComponent.InitCapsuleSize]
  have h := ((IK_capsule_half_height linearInterpTo (sampleEngine (hitAt 0) (hitAt 0))
    (sampleCharacter 1 2 3)).2 hmax).2 (fun x => by rw [sample_FInterp]; ring)
  exact ⟨hmax, by rw [h.1, hH], h.2 (by rw [hC, hH])⟩

/-- C9. The mesh offset is interpolated toward `max (L, R)` with no sentinel
check. For `L = -1`, `R = 4` both foot targets are `0` and the mesh target is
`4`; for `L = R = -1` the mesh target is `-1` and the capsule target is
`CapsuleHalfHeight + 1/2`, strictly above the stored half-height. -/
theorem IK_mesh_target_unguarded (FInterpTo : FInterpToFn) (w : Engine)
    (c : ASimpleFootIKCharacter) :
    (IK FInterpTo w c).1.MeshOffsetZ =
      FInterp FInterpTo w c c.MeshOffsetZ (max (HitDistanceLeft w c) (HitDistanceRight w c)) ∧
    (HitDistanceLeft w c = -1 → HitDistanceRight w c = 4 →
      (IK FInterpTo w c).1.IKOffsetLeftFoot = FInterp FInterpTo w c c.IKOffsetLeftFoot 0 ∧
      (IK FInterpTo w c).1.IKOffsetRightFoot = FInterp FInterpTo w c c.IKOffsetRightFoot 0 ∧
      (IK FInterpTo w c).1.MeshOffsetZ = FInterp FInterpTo w c c.MeshOffsetZ 4) ∧
    (HitDistanceLeft w c = -1 → HitDistanceRight w c = -1 →
      (IK FInterpTo w c).1.MeshOffsetZ = FInterp FInterpTo w c c.MeshOffsetZ (-1) ∧
      (IK FInterpTo w c).1.CapsuleComponent.CapsuleHalfHeight =
        FInterp FInterpTo w c c.CapsuleHalfHeight (c.CapsuleHalfHeight + 1 / 2) ∧
      c.CapsuleHalfHeight < c.CapsuleHalfHeight + 1 / 2) := by
  refine ⟨IK_mesh FInterpTo w c, fun hL hR => ?_, fun hL hR => ?_⟩
  · rw [IK_left, IK_right, IK_mesh, hL, hR]
    refine ⟨?_, ?_, ?_⟩
    · norm_num [leftFootTarget]
    · norm_num [rightFootTarget]
    · norm_num
  · rw [IK_mesh, IK_capsule, hL, hR]
    refine ⟨by norm_num, ?_, by norm_num⟩
    congr 1
    norm_num

/-- Witness for C9: no hit on the left and distance 4 on the right, then no
hit on either side, from offsets 1, 2 and mesh offset 3. -/
theorem IK_mesh_target_unguarded_witness :
    (HitDistanceLeft (sampleEngine noHit (hitAt 4)) (sampleCharacter 1 2 3) = -1 ∧
      HitDistanceRight (sampleEngine noHit (hitAt 4)) (sampleCharacter 1 2 3) = 4 ∧
      (IK linearInterpTo (sampleEngine noHit (hitAt 4)) (sampleCharacter 1 2 3)).1.MeshOffsetZ
        = 16 / 5) ∧
    (HitDistanceLeft (sampleEngine noHit noHit) (sampleCharacter 1 2 3) = -1 ∧
      HitDistanceRight (sampleEngine noHit noHit) (sampleCharacter 1 2 3) = -1 ∧
      (IK linearInterpTo (sampleEngine noHit noHit) (sampleCharacter 1 2 3)).1.MeshOffsetZ
        = 11 / 5 ∧
      (IK linearInterpTo (sampleEngine noHit noHit)
        (sampleCharacter 1 2 3)).1.CapsuleComponent.CapsuleHalfHeight = 96 + 1 / 10) := by
  have hl (hitR : FHitResult) :
      HitDistanceLeft (sampleEngine noHit hitR) (sampleCharacter 1 2 3) = -1 := by
    rw [sample_left]; rfl
  have hr4 : HitDistanceRight (sampleEngine noHit (hitAt 4)) (sampleCharacter 1 2 3) = 4 := by
    rw [sample_right]; rfl
  have hr : HitDistanceRight (sampleEngine noHit noHit) (sampleCharacter 1 2 3) = -1 := by
    rw [sample_right]; rfl
  have hH : (sampleCharacter 1 2 3).CapsuleHalfHeight = 96 := by
    norm_num [sampleCharacter, sampleRaw, ASimpleFootIKCharacter.ctor,
      UCapsuleComponent.GetScaledCapsuleHalfHeight, UCapsuleComponent.InitCapsuleSize]
  have h4 := (IK_mesh_target_unguarded linearInterpTo (sampleEngine noHit (hitAt 4))
    (sampleCharacter 1 2 3)).2.1 (hl _) hr4
  have h1 := (IK_mesh_target_unguarded linearInterpTo (sampleEngine noHit noHit)
    (sampleCharacter 1 2 3)).2.2 (hl _) hr
  rw [sample_FInterp, sample_FInterp, sample_FInterp] at h4
  rw [sample_FInterp, sample_FInterp, hH] at h1
  refine ⟨⟨hl _, hr4, ?_⟩, hl _, hr, ?_, ?_⟩
  · rw [h4.2.2]; norm_num [sampleCharacter, sampleRaw, ASimpleFootIKCharacter.ctor]
  · rw [h1.1]; norm_num [sampleCharacter, sampleRaw, ASimpleFootIKCharacter.ctor]
  · rw [h1.2.1]; norm_num

/-! ## The ground probe -/

/-- C7. Let `OutHit` be what the line trace from foot level down to
`IKTraceDistance` below it reports. `IKFootTrace` returns `OutHit.Distance` when
the trace reports a blocking hit and `-1` otherwise, and `GetHitDistance`
returns the same number. Hence, when a blocking hit reports a distance in
`[0, IKTraceDistance]`, the probe result is either in `[0, IKTraceDistance]` or
is `-1`, and it is negative exactly when there was no blocking hit. -/
theorem IKFootTrace_distance_or_sentinel (w : Engine) (c : ASimpleFootIKCharacter)
    (Socket : FName) (OutHit : FHitResult)
    (hOut : w.LineTraceSingleForObjects
        { X := (w.SocketLocation Socket).X
          Y := (w.SocketLocation Socket).Y
          Z := w.ActorLocation.Z - c.CapsuleHalfHeight }
        { X := (w.SocketLocation Socket).X
          Y := (w.SocketLocation Socket).Y
          Z := w.ActorLocation.Z - c.CapsuleHalfHeight - c.IKTraceDistance } = OutHit) :
    (OutHit.bBlockingHit = true → IKFootTrace w c Socket = OutHit.Distance) ∧
    (OutHit.bBlockingHit = false → IKFootTrace w c Socket = -1) ∧
    (GetHitDistance w c Socket).1 = IKFootTrace w c Socket ∧
    ((OutHit.bBlockingHit = true → 0 ≤ OutHit.Distance ∧ OutHit.Distance ≤ c.IKTraceDistance) →
      ((0 ≤ (GetHitDistance w c Socket).1 ∧ (GetHitDistance w c Socket).1 ≤ c.IKTraceDistance) ∨
          (GetHitDistance w c Socket).1 = -1) ∧
        ((GetHitDistance w c Socket).1 < 0 ↔ OutHit.bBlockingHit = false)) := by
  have hval : IKFootTrace w c Socket = if OutHit.bBlockingHit then OutHit.Distance else -1 := by
    simp only [IKFootTrace, FVector.Set, hOut]
  have hget : (GetHitDistance w c Socket).1 = IKFootTrace w c Socket := rfl
  refine ⟨fun hb => by rw [hval, if_pos hb], fun hb => by rw [hval, hb]; rfl, hget, fun hrange => ?_⟩
  rw [hget, hval]
  cases hb : OutHit.bBlockingHit with
  | false => simp
  | true =>
    have h := hrange hb
    simp only [if_true]
    exact ⟨Or.inl h, by simp; exact h.1⟩

/-- Witness for C7: the left trace of the sample frame reports a blocking hit
at 7, within the trace distance 48 of the constructed character. -/
theorem IKFootTrace_distance_or_sentinel_witness :
    IKFootTrace (sampleEngine (hitAt 7) noHit) (sampleCharacter 1 2 3) "foot_l" = 7 ∧
    (GetHitDistance (sampleEngine (hitAt 7) noHit) (sampleCharacter 1 2 3) "foot_l").1 = 7 ∧
    (sampleCharacter 1 2 3).IKTraceDistance = 48 ∧
    ¬ (GetHitDistance (sampleEngine (hitAt 7) noHit) (sampleCharacter 1 2 3) "foot_l").1 < 0 := by
  have hT : (sampleCharacter 1 2 3).IKTraceDistance = 48 := by
    norm_num [sampleCharacter, sampleRaw, ASimpleFootIKCharacter.ctor,
      UCapsuleComponent.GetScaledCapsuleHalfHeight, UCapsuleComponent.InitCapsuleSize]
  have h := IKFootTrace_distance_or_sentinel (sampleEngine (hitAt 7) noHit)
    (sampleCharacter 1 2 3) "foot_l" (hitAt 7) (by simp [sampleEngine])
  have h1 : IKFootTrace (sampleEngine (hitAt 7) noHit) (sampleCharacter 1 2 3) "foot_l" = 7 :=
    h.1 rfl
  have h4 := (h.2.2.2 (fun _ => by rw [hT]; norm_num [hitAt])).2
  refine ⟨h1, by rw [h.2.2.1, h1], hT, fun hneg => ?_⟩
  have := h4.mp hneg
  simp [hitAt] at this

/-! ## Frame and symmetry -/

/-- C8. A call of `IK` leaves the stored `CapsuleHalfHeight`, `IKTraceDistance`,
`IKInterpSpeed`, `BaseTurnRate` and `BaseLookUpRate` as they were; the character
afterwards differs from the one before only in `IKOffsetLeftFoot`,
`IKOffsetRightFoot`, `MeshOffsetZ` and the half-height of the capsule
component. The constructor sets the trace distance to half the stored
half-height, which is the scaled half-height of a capsule initialised to 96:
for scale 1 the half-height is 96 and the trace distance 48. -/
theorem IK_writes_only_pose (FInterpTo : FInterpToFn) (w : Engine)
    (c raw : ASimpleFootIKCharacter) :
    ((IK FInterpTo w c).1.CapsuleHalfHeight = c.CapsuleHalfHeight ∧
      (IK FInterpTo w c).1.IKTraceDistance = c.IKTraceDistance ∧
      (IK FInterpTo w c).1.IKInterpSpeed = c.IKInterpSpeed ∧
      (IK FInterpTo w c).1.BaseTurnRate = c.BaseTurnRate ∧
      (IK FInterpTo w c).1.BaseLookUpRate = c.BaseLookUpRate) ∧
    (IK FInterpTo w c).1 =
      { c with
        IKOffsetLeftFoot := (IK FInterpTo w c).1.IKOffsetLeftFoot
        IKOffsetRightFoot := (IK FInterpTo w c).1.IKOffsetRightFoot
        MeshOffsetZ := (IK FInterpTo w c).1.MeshOffsetZ
        CapsuleComponent :=
          { c.CapsuleComponent with
            CapsuleHalfHeight := (IK FInterpTo w c).1.CapsuleComponent.CapsuleHalfHeight } } ∧
    raw.ctor.IKTraceDistance = raw.ctor.CapsuleHalfHeight / 2 ∧
    raw.ctor.CapsuleHalfHeight = 96 * raw.CapsuleComponent.ShapeScale ∧
    (raw.CapsuleComponent.ShapeScale = 1 →
      raw.ctor.CapsuleHalfHeight = 96 ∧ raw.ctor.IKTraceDistance = 48) := by
  have hframe := IK_untouched FInterpTo w c
  have hH : raw.ctor.CapsuleHalfHeight = 96 * raw.CapsuleComponent.ShapeScale := by
    simp [ASimpleFootIKCharacter.ctor, UCapsuleComponent.GetScaledCapsuleHalfHeight,
      UCapsuleComponent.InitCapsuleSize]
  have hT : raw.ctor.IKTraceDistance = raw.ctor.CapsuleHalfHeight / 2 := by
    simp [ASimpleFootIKCharacter.ctor]
  refine ⟨⟨?_, ?_, ?_, ?_, ?_⟩, hframe, hT, hH, fun h1 => ?_⟩
  · rw [hframe]
  · rw [hframe]
  · rw [hframe]
  · rw [hframe]
  · rw [hframe]
  · rw [hT, hH, h1]
    norm_num

/-- Witness for C8: the header object of the sample character has scale 1, so
the constructor stores half-height 96 and trace distance 48. -/
theorem IK_writes_only_pose_witness :
    (sampleRaw 1 2 3).CapsuleComponent.ShapeScale = 1 ∧
    (sampleRaw 1 2 3).ctor.CapsuleHalfHeight = 96 ∧
    (sampleRaw 1 2 3).ctor.IKTraceDistance = 48 ∧
    (IK linearInterpTo (sampleEngine (hitAt 4) (hitAt 10)) (sampleCharacter 1 2 3)).1.IKTraceDistance
      = 48 := by
  have h := IK_writes_only_pose linearInterpTo (sampleEngine (hitAt 4) (hitAt 10))
    (sampleCharacter 1 2 3) (sampleRaw 1 2 3)
  have h48 := h.2.2.2.2 rfl
  exact ⟨rfl, h48.1, h48.2, by rw [h.1.2.1]; exact h48.2⟩

/-- C4. Mirror symmetry. Let a second run start from the mirrored input: foot
offsets exchanged, the same mesh offset, stored half-height, interpolation
speed and frame time, and probe results exchanged. Then, for every
interpolation function, its new left offset is the new right offset of the
first run and conversely, and the new mesh offset and the half-height handed to
the capsule are the same in both runs. Nothing is assumed about the probe
values, so ties and the sentinel are included. -/
theorem IK_mirror (FInterpTo : FInterpToFn) (w w' : Engine) (c c' : ASimpleFootIKCharacter)
    (hleft : c'.IKOffsetLeftFoot = c.IKOffsetRightFoot)
    (hright : c'.IKOffsetRightFoot = c.IKOffsetLeftFoot)
    (hmesh : c'.MeshOffsetZ = c.MeshOffsetZ)
    (hheight : c'.CapsuleHalfHeight = c.CapsuleHalfHeight)
    (hspeed : c'.IKInterpSpeed = c.IKInterpSpeed)
    (hdt : w'.DeltaSeconds = w.DeltaSeconds)
    (hL : HitDistanceLeft w' c' = HitDistanceRight w c)
    (hR : HitDistanceRight w' c' = HitDistanceLeft w c) :
    (IK FInterpTo w' c').1.IKOffsetLeftFoot = (IK FInterpTo w c).1.IKOffsetRightFoot ∧
    (IK FInterpTo w' c').1.IKOffsetRightFoot = (IK FInterpTo w c).1.IKOffsetLeftFoot ∧
    (IK FInterpTo w' c').1.MeshOffsetZ = (IK FInterpTo w c).1.MeshOffsetZ ∧
    (IK FInterpTo w' c').1.CapsuleComponent.CapsuleHalfHeight =
      (IK FInterpTo w c).1.CapsuleComponent.CapsuleHalfHeight := by
  have hswapL : ∀ L R : ℚ, leftFootTarget R L = rightFootTarget L R := by
    intro L R
    unfold leftFootTarget rightFootTarget
    rw [abs_sub_comm R L]
    by_cases hn : L < 0 ∨ R < 0
    · rw [if_pos hn, if_pos (Or.symm hn)]
    · rw [if_neg hn, if_neg (fun h => hn (Or.symm h))]
      rcases lt_trichotomy L R with h | h | h
      · rw [if_pos h, if_neg (not_lt.mpr h.le)]
      · subst h; simp
      · rw [if_neg (not_lt.mpr h.le), if_pos h]
  have hswapR : ∀ L R : ℚ, rightFootTarget R L = leftFootTarget L R := fun L R =>
    (hswapL R L).symm
  refine ⟨?_, ?_, ?_, ?_⟩
  · rw [IK_left, IK_right, hL, hR, hswapL, hleft]
    simp only [FInterp, hdt, hspeed]
  · rw [IK_left, IK_right, hL, hR, hswapR, hright]
    simp only [FInterp, hdt, hspeed]
  · rw [IK_mesh, IK_mesh, hL, hR, max_comm, hmesh]
    simp only [FInterp, hdt, hspeed]
  · rw [IK_capsule, IK_capsule, hL, hR, max_comm, hheight]
    simp only [FInterp, hdt, hspeed]

/-- Witness for C4: traces 4 and 10 with offsets 1 and 2, against traces 10
and 4 with offsets 2 and 1. -/
theorem IK_mirror_witness :
    HitDistanceLeft (sampleEngine (hitAt 10) (hitAt 4)) (sampleCharacter 2 1 3) =
      HitDistanceRight (sampleEngine (hitAt 4) (hitAt 10)) (sampleCharacter 1 2 3) ∧
    (IK linearInterpTo (sampleEngine (hitAt 10) (hitAt 4)) (sampleCharacter 2 1 3)).1.IKOffsetLeftFoot
      = (IK linearInterpTo (sampleEngine (hitAt 4) (hitAt 10))
          (sampleCharacter 1 2 3)).1.IKOffsetRightFoot ∧
    (IK linearInterpTo (sampleEngine (hitAt 10) (hitAt 4)) (sampleCharacter 2 1 3)).1.IKOffsetRightFoot
      = (IK linearInterpTo (sampleEngine (hitAt 4) (hitAt 10))
          (sampleCharacter 1 2 3)).1.IKOffsetLeftFoot := by
  have hl (d e a b : ℚ) :
      HitDistanceLeft (sampleEngine (hitAt d) (hitAt e)) (sampleCharacter a b 3) = d := by
    rw [sample_left]; rfl
  have hr (d e a b : ℚ) :
      HitDistanceRight (sampleEngine (hitAt d) (hitAt e)) (sampleCharacter a b 3) = e := by
    rw [sample_right]; rfl
  have h := IK_mirror linearInterpTo (sampleEngine (hitAt 4) (hitAt 10))
    (sampleEngine (hitAt 10) (hitAt 4)) (sampleCharacter 1 2 3) (sampleCharacter 2 1 3)
    rfl rfl rfl rfl rfl rfl (by rw [hl, hr]) (by rw [hl, hr])
  exact ⟨by rw [hl, hr], h.1, h.2.1⟩

/-! ## Runs of frames -/

theorem IKFootTrace_config (w : Engine) (s c : ASimpleFootIKCharacter) (Socket : FName)
    (hH : s.CapsuleHalfHeight = c.CapsuleHalfHeight)
    (hT : s.IKTraceDistance = c.IKTraceDistance) :
    IKFootTrace w s Socket = IKFootTrace w c Socket := by
  simp only [IKFootTrace, hH, hT]

theorem IK_sameConfig (FInterpTo : FInterpToFn) (w : Engine) (c : ASimpleFootIKCharacter) :
    SameConfig (IK FInterpTo w c).1 c := by
  have h := IK_untouched FInterpTo w c
  constructor <;> rw [h]

theorem IKRun_sameConfig (FInterpTo : FInterpToFn) (frames : ℕ → Engine)
    (c : ASimpleFootIKCharacter) (n : ℕ) : SameConfig (IKRun FInterpTo frames c n) c := by
  induction n with
  | zero => exact ⟨rfl, rfl, rfl, rfl, rfl⟩
  | succ n ih =>
    have h := IK_sameConfig FInterpTo (frames n) (IKRun FInterpTo frames c n)
    exact ⟨h.height.trans ih.height, h.trace.trans ih.trace, h.speed.trans ih.speed,
      h.left.trans ih.left, h.right.trans ih.right⟩

theorem HitDistanceLeft_config (w : Engine) (s c : ASimpleFootIKCharacter)
    (h : SameConfig s c) : HitDistanceLeft w s = HitDistanceLeft w c := by
  simp only [HitDistanceLeft, GetHitDistance, h.left]
  exact IKFootTrace_config w s c _ h.height h.trace

theorem HitDistanceRight_config (w : Engine) (s c : ASimpleFootIKCharacter)
    (h : SameConfig s c) : HitDistanceRight w s = HitDistanceRight w c := by
  simp only [HitDistanceRight, GetHitDistance, h.right]
  exact IKFootTrace_config w s c _ h.height h.trace

theorem footTargets_range (L R T : ℚ) (hT : 0 ≤ T)
    (hL : L = -1 ∨ (0 ≤ L ∧ L ≤ T)) (hR : R = -1 ∨ (0 ≤ R ∧ R ≤ T)) :
    (0 ≤ leftFootTarget L R ∧ leftFootTarget L R ≤ T) ∧
      (0 ≤ rightFootTarget L R ∧ rightFootTarget L R ≤ T) := by
  unfold leftFootTarget rightFootTarget
  by_cases hn : L < 0 ∨ R < 0
  · simp only [if_pos hn]
    exact ⟨⟨le_refl 0, hT⟩, le_refl 0, hT⟩
  · simp only [if_neg hn]
    have hL0 : 0 ≤ L := not_lt.mp (fun h => hn (Or.inl h))
    have hR0 : 0 ≤ R := not_lt.mp (fun h => hn (Or.inr h))
    have hLT : L ≤ T := by
      rcases hL with h | h
      · linarith
      · exact h.2
    have hRT : R ≤ T := by
      rcases hR with h | h
      · linarith
      · exact h.2
    have habs : |L - R| ≤ T := abs_le.mpr ⟨by linarith, by linarith⟩
    split_ifs
    · exact ⟨⟨abs_nonneg _, habs⟩, le_refl 0, hT⟩
    · exact ⟨⟨le_refl 0, hT⟩, abs_nonneg _, habs⟩

theorem between_range (x cur tgt T : ℚ) (hlo : min cur tgt ≤ x) (hhi : x ≤ max cur tgt)
    (hcur : 0 ≤ cur ∧ cur ≤ T) (htgt : 0 ≤ tgt ∧ tgt ≤ T) : 0 ≤ x ∧ x ≤ T :=
  ⟨le_trans (le_min hcur.1 htgt.1) hlo, le_trans hhi (max_le hcur.2 htgt.2)⟩

theorem IK_offsets_step (FInterpTo : FInterpToFn)
    (hF : ∀ cur tgt dt s : ℚ,
      min cur tgt ≤ FInterpTo cur tgt dt s ∧ FInterpTo cur tgt dt s ≤ max cur tgt)
    (w : Engine) (c : ASimpleFootIKCharacter)
    (hp : ProbesInRange w c) (hc : OffsetsInRange c) : OffsetsInRange (IK FInterpTo w c).1 := by
  have hT : 0 ≤ c.IKTraceDistance := le_trans hc.1.1 hc.1.2
  have ht := footTargets_range _ _ _ hT hp.1 hp.2
  unfold OffsetsInRange
  rw [IK_left, IK_right, (IK_sameConfig FInterpTo w c).trace]
  exact ⟨between_range _ _ _ _ (hF _ _ _ _).1 (hF _ _ _ _).2 hc.1 ht.1,
    between_range _ _ _ _ (hF _ _ _ _).1 (hF _ _ _ _).2 hc.2 ht.2⟩

theorem footTargets_nonneg (L R : ℚ) : 0 ≤ leftFootTarget L R ∧ 0 ≤ rightFootTarget L R := by
  unfold leftFootTarget rightFootTarget
  split_ifs
  · exact ⟨le_refl 0, le_refl 0⟩
  · exact ⟨abs_nonneg _, le_refl 0⟩
  · exact ⟨le_refl 0, abs_nonneg _⟩

theorem IK_offsets_nonneg_step (FInterpTo : FInterpToFn)
    (hF : ∀ cur tgt dt s : ℚ,
      min cur tgt ≤ FInterpTo cur tgt dt s ∧ FInterpTo cur tgt dt s ≤ max cur tgt)
    (w : Engine) (c : ASimpleFootIKCharacter)
    (hl : 0 ≤ c.IKOffsetLeftFoot) (hr : 0 ≤ c.IKOffsetRightFoot) :
    0 ≤ (IK FInterpTo w c).1.IKOffsetLeftFoot ∧ 0 ≤ (IK FInterpTo w c).1.IKOffsetRightFoot := by
  have ht := footTargets_nonneg (HitDistanceLeft w c) (HitDistanceRight w c)
  rw [IK_left, IK_right]
  exact ⟨le_trans (le_min hl ht.1) (hF _ _ _ _).1, le_trans (le_min hr ht.2) (hF _ _ _ _).1⟩

/-- C10. Assume `FInterpTo` always returns a value between its current value and
its target. Then a call of `IK` whose probe results are `-1` or a distance in
`[0, IKTraceDistance]` preserves `0 ≤ IKOffsetLeftFoot ≤ IKTraceDistance` and
`0 ≤ IKOffsetRightFoot ≤ IKTraceDistance`. So from rest (both offsets `0`) no
run of such frames, no-hit frames included, produces a negative foot offset,
nor, the trace distance being non-negative as the constructor leaves it, one
larger than the trace distance, which no call changes. -/
theorem IK_offsets_stay_in_range (FInterpTo : FInterpToFn)
    (hF : ∀ cur tgt dt s : ℚ,
      min cur tgt ≤ FInterpTo cur tgt dt s ∧ FInterpTo cur tgt dt s ≤ max cur tgt) :
    (∀ (w : Engine) (c : ASimpleFootIKCharacter),
      ProbesInRange w c → OffsetsInRange c → OffsetsInRange (IK FInterpTo w c).1) ∧
    (∀ (frames : ℕ → Engine) (c : ASimpleFootIKCharacter),
      c.IKOffsetLeftFoot = 0 → c.IKOffsetRightFoot = 0 →
      (∀ n, ProbesInRange (frames n) (IKRun FInterpTo frames c n)) →
      ∀ n, (0 ≤ (IKRun FInterpTo frames c n).IKOffsetLeftFoot ∧
          0 ≤ (IKRun FInterpTo frames c n).IKOffsetRightFoot) ∧
        (IKRun FInterpTo frames c n).IKTraceDistance = c.IKTraceDistance ∧
        (0 ≤ c.IKTraceDistance → OffsetsInRange (IKRun FInterpTo frames c n))) := by
  refine ⟨IK_offsets_step FInterpTo hF, fun frames c hl hr hp n => ⟨?_, ?_, fun hT => ?_⟩⟩
  · induction n with
    | zero => exact ⟨hl.ge, hr.ge⟩
    | succ n ih => exact IK_offsets_nonneg_step FInterpTo hF (frames n) _ ih.1 ih.2
  · exact (IKRun_sameConfig FInterpTo frames c n).trace
  · induction n with
    | zero =>
      show OffsetsInRange c
      unfold OffsetsInRange
      rw [hl, hr]
      exact ⟨⟨le_refl 0, hT⟩, le_refl 0, hT⟩
    | succ n ih => exact IK_offsets_step FInterpTo hF (frames n) _ (hp n) ih

theorem Clamp_unit (x : ℚ) : 0 ≤ FMath.Clamp x 0 1 ∧ FMath.Clamp x 0 1 ≤ 1 := by
  unfold FMath.Clamp
  split_ifs with h1 h2
  · exact ⟨le_refl 0, zero_le_one⟩
  · exact ⟨not_lt.mp h1, h2.le⟩
  · exact ⟨zero_le_one, le_refl 1⟩

theorem Clamp_pos (x : ℚ) (hx : 0 < x) : 0 < FMath.Clamp x 0 1 := by
  unfold FMath.Clamp
  rw [if_neg (not_lt.mpr hx.le)]
  split_ifs
  · exact hx
  · exact zero_lt_one

theorem linearInterpTo_between (cur tgt dt s : ℚ) :
    min cur tgt ≤ linearInterpTo cur tgt dt s ∧ linearInterpTo cur tgt dt s ≤ max cur tgt := by
  unfold linearInterpTo
  obtain ⟨h0, h1⟩ := Clamp_unit (dt * s)
  generalize FMath.Clamp (dt * s) 0 1 = k at h0 h1
  rcases le_total cur tgt with h | h
  · rw [min_eq_left h, max_eq_right h]
    constructor
    · nlinarith
    · nlinarith
  · rw [min_eq_right h, max_eq_left h]
    constructor
    · nlinarith
    · nlinarith

/-- Witness for C10: the linear blend stays between its arguments; three frames
from rest with traces 4 and 10, and one frame from offsets 1 and 2 with no hit
on the right. -/
theorem IK_offsets_stay_in_range_witness :
    OffsetsInRange (IK linearInterpTo (sampleEngine (hitAt 4) noHit) (sampleCharacter 1 2 3)).1 ∧
    OffsetsInRange
      (IKRun linearInterpTo (fun _ => sampleEngine (hitAt 4) (hitAt 10)) (sampleCharacter 0 0 0) 3)
    := by
  have h := IK_offsets_stay_in_range linearInterpTo linearInterpTo_between
  have hT (a b m : ℚ) : (sampleCharacter a b m).IKTraceDistance = 48 := by
    norm_num [sampleCharacter, sampleRaw, ASimpleFootIKCharacter.ctor,
      UCapsuleComponent.GetScaledCapsuleHalfHeight, UCapsuleComponent.InitCapsuleSize]
  refine ⟨h.1 _ _ ?_ ?_, (h.2 (fun _ => sampleEngine (hitAt 4) (hitAt 10))
    (sampleCharacter 0 0 0) rfl rfl (fun n => ?_) 3).2.2 (by rw [hT]; norm_num)⟩
  · unfold ProbesInRange
    rw [sample_left, sample_right, hT]
    norm_num [hitAt, noHit]
  · unfold OffsetsInRange
    rw [hT]
    norm_num [sampleCharacter, sampleRaw, ASimpleFootIKCharacter.ctor]
  · have hc := IKRun_sameConfig linearInterpTo (fun _ => sampleEngine (hitAt 4) (hitAt 10))
      (sampleCharacter 0 0 0) n
    unfold ProbesInRange
    rw [HitDistanceLeft_config _ _ _ hc, HitDistanceRight_config _ _ _ hc, hc.trace,
      sample_left, sample_right, hT]
    norm_num [hitAt]

/-! ## Steady state -/

theorem geometric_small (q d ε : ℚ) (hq0 : 0 ≤ q) (hq1 : q < 1) (hε : 0 < ε) :
    ∃ N : ℕ, ∀ n ≥ N, |q ^ n * d| < ε := by
  by_cases hd : d = 0
  · exact ⟨0, fun n _ => by simpa [hd] using hε⟩
  · have hdpos : 0 < |d| := abs_pos.mpr hd
    obtain ⟨N, hN⟩ := exists_pow_lt_of_lt_one (div_pos hε hdpos) hq1
    refine ⟨N, fun n hn => ?_⟩
    have hle : q ^ n ≤ q ^ N := pow_le_pow_of_le_one hq0 hq1.le hn
    rw [abs_mul, abs_of_nonneg (pow_nonneg hq0 n)]
    calc q ^ n * |d| ≤ q ^ N * |d| := mul_le_mul_of_nonneg_right hle hdpos.le
      _ < ε / |d| * |d| := mul_lt_mul_of_pos_right hN hdpos
      _ = ε := div_mul_cancel₀ ε hdpos.ne.symm

/-- With the linear blend and a constant frame (frame time `dt`, probes `L` and
`R`), the distance of each smoothed output from its target shrinks by the
factor `1 - Clamp (dt * speed, 0, 1)` per call. -/
theorem IKRun_linear (FInterpTo : FInterpToFn)
    (hlin : ∀ cur tgt dt s : ℚ,
      FInterpTo cur tgt dt s = cur + (tgt - cur) * FMath.Clamp (dt * s) 0 1)
    (frames : ℕ → Engine) (c : ASimpleFootIKCharacter) (L R dt : ℚ)
    (hframes : ∀ n, (frames n).DeltaSeconds = dt ∧
      HitDistanceLeft (frames n) (IKRun FInterpTo frames c n) = L ∧
      HitDistanceRight (frames n) (IKRun FInterpTo frames c n) = R) (n : ℕ) :
    (IKRun FInterpTo frames c n).IKOffsetLeftFoot - leftFootTarget L R =
        (1 - FMath.Clamp (dt * c.IKInterpSpeed) 0 1) ^ n *
          (c.IKOffsetLeftFoot - leftFootTarget L R) ∧
    (IKRun FInterpTo frames c n).IKOffsetRightFoot - rightFootTarget L R =
        (1 - FMath.Clamp (dt * c.IKInterpSpeed) 0 1) ^ n *
          (c.IKOffsetRightFoot - rightFootTarget L R) ∧
    (IKRun FInterpTo frames c n).MeshOffsetZ - max L R =
        (1 - FMath.Clamp (dt * c.IKInterpSpeed) 0 1) ^ n * (c.MeshOffsetZ - max L R) := by
  induction n with
  | zero => simp [IKRun]
  | succ n ih =>
    obtain ⟨hdt, hL, hR⟩ := hframes n
    have hs := (IKRun_sameConfig FInterpTo frames c n).speed
    simp only [IKRun, IK_left, IK_right, IK_mesh, hL, hR, FInterp, hlin, hdt, hs, pow_succ]
    obtain ⟨i1, i2, i3⟩ := ih
    refine ⟨?_, ?_, ?_⟩
    · linear_combination (1 - FMath.Clamp (dt * c.IKInterpSpeed) 0 1) * i1
    · linear_combination (1 - FMath.Clamp (dt * c.IKInterpSpeed) 0 1) * i2
    · linear_combination (1 - FMath.Clamp (dt * c.IKInterpSpeed) 0 1) * i3

/-- C6. Let `FInterpTo` be the linear blend
`current + (target - current) * Clamp (dt * speed, 0, 1)`, and let every frame
of a run have the same frame time `dt > 0` and the same probe results `L` and
`R`, with interpolation speed `> 0`. Then `IKOffsetLeftFoot`,
`IKOffsetRightFoot` and `MeshOffsetZ` converge to the foot targets of the
branch taken and to `max (L, R)`; and a state in which the three already equal
those targets is a fixed point of every call in the run. -/
theorem IK_steady_state (FInterpTo : FInterpToFn)
    (hlin : ∀ cur tgt dt s : ℚ,
      FInterpTo cur tgt dt s = cur + (tgt - cur) * FMath.Clamp (dt * s) 0 1)
    (frames : ℕ → Engine) (c : ASimpleFootIKCharacter) (L R dt : ℚ)
    (hdt : 0 < dt) (hspeed : 0 < c.IKInterpSpeed)
    (hframes : ∀ n, (frames n).DeltaSeconds = dt ∧
      HitDistanceLeft (frames n) (IKRun FInterpTo frames c n) = L ∧
      HitDistanceRight (frames n) (IKRun FInterpTo frames c n) = R) :
    (∀ ε : ℚ, 0 < ε → ∃ N : ℕ, ∀ n ≥ N,
      |(IKRun FInterpTo frames c n).IKOffsetLeftFoot - leftFootTarget L R| < ε ∧
      |(IKRun FInterpTo frames c n).IKOffsetRightFoot - rightFootTarget L R| < ε ∧
      |(IKRun FInterpTo frames c n).MeshOffsetZ - max L R| < ε) ∧
    (c.IKOffsetLeftFoot = leftFootTarget L R → c.IKOffsetRightFoot = rightFootTarget L R →
      c.MeshOffsetZ = max L R →
      ∀ n, (IKRun FInterpTo frames c n).IKOffsetLeftFoot = c.IKOffsetLeftFoot ∧
        (IKRun FInterpTo frames c n).IKOffsetRightFoot = c.IKOffsetRightFoot ∧
        (IKRun FInterpTo frames c n).MeshOffsetZ = c.MeshOffsetZ) := by
  have hrun := IKRun_linear FInterpTo hlin frames c L R dt hframes
  have hk0 := Clamp_pos (dt * c.IKInterpSpeed) (mul_pos hdt hspeed)
  have hk1 := (Clamp_unit (dt * c.IKInterpSpeed)).2
  have hq0 : 0 ≤ 1 - FMath.Clamp (dt * c.IKInterpSpeed) 0 1 := by linarith
  have hq1 : 1 - FMath.Clamp (dt * c.IKInterpSpeed) 0 1 < 1 := by linarith
  constructor
  · intro ε hε
    obtain ⟨N1, h1⟩ := geometric_small _ (c.IKOffsetLeftFoot - leftFootTarget L R) ε hq0 hq1 hε
    obtain ⟨N2, h2⟩ := geometric_small _ (c.IKOffsetRightFoot - rightFootTarget L R) ε hq0 hq1 hε
    obtain ⟨N3, h3⟩ := geometric_small _ (c.MeshOffsetZ - max L R) ε hq0 hq1 hε
    refine ⟨max N1 (max N2 N3), fun n hn => ?_⟩
    have hn1 : N1 ≤ n := le_trans (le_max_left _ _) hn
    have hn2 : N2 ≤ n := le_trans (le_trans (le_max_left _ _) (le_max_right _ _)) hn
    have hn3 : N3 ≤ n := le_trans (le_trans (le_max_right _ _) (le_max_right _ _)) hn
    obtain ⟨e1, e2, e3⟩ := hrun n
    rw [e1, e2, e3]
    exact ⟨h1 n hn1, h2 n hn2, h3 n hn3⟩
  · intro f1 f2 f3 n
    obtain ⟨e1, e2, e3⟩ := hrun n
    rw [f1] at e1 ⊢
    rw [f2] at e2 ⊢
    rw [f3] at e3 ⊢
    simp only [sub_self, mul_zero] at e1 e2 e3
    exact ⟨sub_eq_zero.mp e1, sub_eq_zero.mp e2, sub_eq_zero.mp e3⟩

/-- Witness for C6: every frame has frame time 1/50 and traces 4 (left) and 10
(right), the interpolation speed is 10. From offsets 1, 2 and mesh offset 3
the outputs converge to 6, 0 and 10; from 6, 0 and 10 they do not move. -/
theorem IK_steady_state_witness :
    (∀ ε : ℚ, 0 < ε → ∃ N : ℕ, ∀ n ≥ N,
      |(IKRun linearInterpTo (fun _ => sampleEngine (hitAt 4) (hitAt 10))
          (sampleCharacter 1 2 3) n).IKOffsetLeftFoot - 6| < ε ∧
      |(IKRun linearInterpTo (fun _ => sampleEngine (hitAt 4) (hitAt 10))
          (sampleCharacter 1 2 3) n).IKOffsetRightFoot - 0| < ε ∧
      |(IKRun linearInterpTo (fun _ => sampleEngine (hitAt 4) (hitAt 10))
          (sampleCharacter 1 2 3) n).MeshOffsetZ - 10| < ε) ∧
    (IKRun linearInterpTo (fun _ => sampleEngine (hitAt 4) (hitAt 10))
        (sampleCharacter 6 0 10) 1).IKOffsetLeftFoot = 6 ∧
    (IKRun linearInterpTo (fun _ => sampleEngine (hitAt 4) (hitAt 10))
        (sampleCharacter 6 0 10) 1).IKOffsetRightFoot = 0 ∧
    (IKRun linearInterpTo (fun _ => sampleEngine (hitAt 4) (hitAt 10))
        (sampleCharacter 6 0 10) 1).MeshOffsetZ = 10 := by
  have hframes (a b m : ℚ) : ∀ n : ℕ,
      ((fun _ => sampleEngine (hitAt 4) (hitAt 10)) n : Engine).DeltaSeconds = 1 / 50 ∧
      HitDistanceLeft ((fun _ => sampleEngine (hitAt 4) (hitAt 10)) n)
        (IKRun linearInterpTo (fun _ => sampleEngine (hitAt 4) (hitAt 10))
          (sampleCharacter a b m) n) = 4 ∧
      HitDistanceRight ((fun _ => sampleEngine (hitAt 4) (hitAt 10)) n)
        (IKRun linearInterpTo (fun _ => sampleEngine (hitAt 4) (hitAt 10))
          (sampleCharacter a b m) n) = 10 := by
    intro n
    have hc := IKRun_sameConfig linearInterpTo (fun _ => sampleEngine (hitAt 4) (hitAt 10))
      (sampleCharacter a b m) n
    refine ⟨rfl, ?_, ?_⟩
    · rw [HitDistanceLeft_config _ _ _ hc, sample_left]; rfl
    · rw [HitDistanceRight_config _ _ _ hc, sample_right]; rfl
  have hspeed (a b m : ℚ) : 0 < (sampleCharacter a b m).IKInterpSpeed := by
    norm_num [sampleCharacter, sampleRaw, ASimpleFootIKCharacter.ctor]
  have htl : leftFootTarget 4 10 = 6 := by norm_num [leftFootTarget]
  have htr : rightFootTarget 4 10 = 0 := by norm_num [rightFootTarget]
  have htm : max (4 : ℚ) 10 = 10 := by norm_num
  have h1 := (IK_steady_state linearInterpTo (fun _ _ _ _ => rfl)
    (fun _ => sampleEngine (hitAt 4) (hitAt 10)) (sampleCharacter 1 2 3) 4 10 (1 / 50)
    (by norm_num) (hspeed 1 2 3) (hframes 1 2 3)).1
  have h2 := (IK_steady_state linearInterpTo (fun _ _ _ _ => rfl)
    (fun _ => sampleEngine (hitAt 4) (hitAt 10)) (sampleCharacter 6 0 10) 4 10 (1 / 50)
    (by norm_num) (hspeed 6 0 10) (hframes 6 0 10)).2
  rw [htl, htr, htm] at h1 h2
  exact ⟨h1, h2 rfl rfl rfl 1⟩

end SimpleFootIK
